import Mathlib

/-!
Verification development for the Thorlabs TMC5130 SPI stepper-driver library.

The definitions below are a shallow embedding of the C++ sources
(TMC5130_lib.cpp and TMC5130_lib.h).  Machine integers are modelled as
natural-number bit patterns (with explicit reduction modulo powers of two
where the C code truncates) or as mathematical integers where the C code
works with signed values.  Buffers are lists of byte values.  The
user-implemented SPI transport (a virtual method with an empty default body
in the source) is modelled by passing the received bytes of each transfer
in as parameters, and, for failure analysis, as an Except value.
-/

namespace TMC5130

/-! Register address constants, from TMC5130_lib.h lines 19-62. -/

def MCL_GCONF : Nat := 0x00

def MCL_IHOLD_IRUN : Nat := 0x10

def MCL_RAMPMODE : Nat := 0x20

def MCL_XACTUAL : Nat := 0x21

def MCL_VACTUAL : Nat := 0x22

def MCL_A1 : Nat := 0x24

def MCL_V1 : Nat := 0x25

def MCL_AMAX : Nat := 0x26

def MCL_VMAX : Nat := 0x27

def MCL_DMAX : Nat := 0x28

def MCL_D1 : Nat := 0x2A

def MCL_VSTOP : Nat := 0x2B

def MCL_XTARGET : Nat := 0x2D

def MCL_X_ENC : Nat := 0x39

def MCL_CHOPCONF : Nat := 0x6C

def MCL_PWMCONF : Nat := 0x70

/-- Reinterpret a 32-bit pattern as a signed two-complement int32_t value. -/
def toSigned32 (w : Nat) : Int :=
  if w < 2 ^ 31 then (w : Int) else (w : Int) - 2 ^ 32

/-- Store a signed value into a 32-bit pattern, two-complement. -/
def toPattern32 (x : Int) : Nat := (x % 2 ^ 32).toNat

/-- Big-endian reassembly of four received bytes into one 32-bit pattern,
as built by the shift-or chain of TMC5130_lib.cpp lines 71-74. -/
def word32 (b1 b2 b3 b4 : Nat) : Nat :=
  b1 <<< 24 ||| b2 <<< 16 ||| b3 <<< 8 ||| b4

/-- Frame sent by write_register (TMC5130_lib.cpp lines 29-38): byte 0 is
the address with the write bit applied by XOR, bytes 1-4 are the big-endian
bytes of the data word. -/
def write_frame (addr data : Nat) : List Nat :=
  [addr ^^^ 0x80,
   (data >>> 24) &&& 0xFF,
   (data >>> 16) &&& 0xFF,
   (data >>> 8) &&& 0xFF,
   data &&& 0xFF]

/-- Result of one call to read_register: the two 5-byte frames handed to the
transport, the returned status byte and the value stored at the out pointer. -/
structure ReadOutcome where
  sent1 : List Nat
  sent2 : List Nat
  status : Nat
  value : Int

/-- Shallow embedding of read_register (TMC5130_lib.cpp lines 48-79).

The local array cmd receives only its byte 0 (addr XOR 0x00); bytes 1-4 of
cmd are never assigned, so they hold indeterminate stack residue, modelled
here by the parameters j1 j2 j3 j4.  The dummy buffer is a byte-for-byte
copy of cmd (lines 57-59).  The transport replaces each transmitted buffer
with the received bytes: transfer 1 sends the dummy copy and overwrites it
with rx1, which is never read again; transfer 2 sends cmd and overwrites it
with rx2.  Status is the final cmd[0], the stored value is the signed
big-endian reassembly of the final cmd[1..4]. -/
def read_register (addr j1 j2 j3 j4 : Nat) (rx1 rx2 : List Nat) : ReadOutcome :=
  let cmd : List Nat := [addr ^^^ 0x00, j1, j2, j3, j4]
  let dummy : List Nat := cmd
  let _dummyAfter : List Nat := rx1
  let cmdAfter : List Nat := rx2
  { sent1 := dummy
    sent2 := cmd
    status := cmdAfter.headD 0
    value := toSigned32 (word32 (cmdAfter.getD 1 0) (cmdAfter.getD 2 0)
      (cmdAfter.getD 3 0) (cmdAfter.getD 4 0)) }

/-- Modelled from the spec: the transport (Thorlabs_SPI_transfer is a
user-implemented virtual method whose body is not part of this repository)
may fail with a transport-level error on a bus fault (spec sections 6 and
7); a failing transfer delivers no received bytes.  The outcome of one
transfer is therefore an Except carrying either the error or the five
received bytes. -/
def TransferResult : Type := Except Nat (Nat × Nat × Nat × Nat × Nat)

/-- Shallow embedding of read_register with the fallible transport: the
control flow of TMC5130_lib.cpp lines 48-79 is straight-line, with the
store through the out pointer and the status computation placed after both
transfers, and no handler and no retry anywhere in the call chain, so an
abnormal exit of either transfer propagates before any result is produced. -/
def read_register_exc (addr j1 j2 j3 j4 : Nat) (t1 t2 : TransferResult) :
    Except Nat (Nat × Int) :=
  match t1 with
  | .error e => .error e
  | .ok _ =>
    match t2 with
    | .error e => .error e
    | .ok (s1, a, b, c, d) => .ok (s1, toSigned32 (word32 a b c d))

/-! Current-limit converter, from setCurrentLimits
(TMC5130_lib.cpp lines 174-221).  The float inputs and intermediates are
modelled as rational numbers; sqrt2Q is the exact rational value of the
double-precision result of sqrt(2) used at lines 189-190. -/

def sqrt2Q : ℚ := 6369051672525773 / 4503599627370496

/-- Board sense-resistor value, line 178. -/
def RsenseQ : ℚ := 15 / 100

/-- Full-scale sense-voltage selection, line 182: 0.32 V when either
current exceeds 0.75 A, else 0.18 V. -/
def vfsVoltage (ih ir : ℚ) : ℚ :=
  if 3 / 4 < ih ∨ 3 / 4 < ir then 32 / 100 else 18 / 100

/-- Bitwise NOT on a C int, two-complement: the pattern of a bitwise
complement equals the negated value minus one. -/
def cNot (x : Int) : Int := -x - 1

/-- Register bit for the sense-voltage range, line 185.  The source applies
the bitwise NOT operator to the bool-derived int (0 or 1) and converts the
result back to bool, so the stored flag is the C truth value of -1 or -2. -/
def vfsBit (ih ir : ℚ) : Bool :=
  if cNot (if 3 / 4 < ih ∨ 3 / 4 < ir then 1 else 0) = 0 then false else true

/-- Scaled current expression of lines 189-190 before the abs and the
conversion to int8_t. -/
def rawScalar (I vfs : ℚ) : ℚ :=
  32 * sqrt2Q * I * (RsenseQ + 2 / 100) / vfs - 1

/-- Value stored in the int8_t variables iHold and iRun of lines 189-190:
abs of the scaled expression, then conversion to integer, which in C
truncates toward zero; on the nonnegative result of abs this is the floor.
The conversion to int8_t is faithful for results up to 127; beyond that the
C conversion is not defined, and theorems carry that bound where it
matters. -/
def scalarCode (I vfs : ℚ) : Nat := (⌊|rawScalar I vfs|⌋).toNat

/-- Word assembled for the current-control register IHOLD_IRUN at lines
193-196.  The local variable IHOLD_IRUN_CONFIG is declared without an
initializer and only ever or-ed into, so its indeterminate initial pattern,
modelled by the parameter junk, survives into the written word. -/
def iholdIrunWord (junk : Nat) (ih ir : ℚ) (d : Nat) : Nat :=
  junk ||| ((d &&& 0xF) <<< 16) |||
    ((scalarCode ir (vfsVoltage ih ir) &&& 0x1F) <<< 8) |||
    (scalarCode ih (vfsVoltage ih ir) &&& 0x1F)

/-- Bitwise NOT of a 32-bit pattern, as computed on an int32_t. -/
def not32 (x : Nat) : Nat := (2 ^ 32 - 1) ^^^ x

/-- Word written to the chopper-configuration register at lines 202-220:
the value read back with the sense-voltage bit (offset 17) cleared, or-ed
with the computed range flag at that offset. -/
def chopconfWord (current : Nat) (ih ir : ℚ) : Nat :=
  (current &&& not32 (1 <<< 17)) ||| ((if vfsBit ih ir then 1 else 0) <<< 17)

/-- Modelled from the spec: section 4.3 prescribes
code = round of the absolute scaled value, clamped to the interval
[0, 31].  Stated only for comparison against the source-derived
scalarCode. -/
def spec_roundClampCode (I vfs : ℚ) : Int := min 31 (round |rawScalar I vfs|)

/-! Register-file model: reads return the last value written, as assumed by
the idempotence claim about enableStealthChop. -/

def RegFile : Type := Nat → Nat

/-- Point update of the register file, performed by write_register. -/
def writeReg (f : RegFile) (a v : Nat) : RegFile :=
  fun x => if x = a then v else f x

/-- Shallow embedding of enableStealthChop (TMC5130_lib.cpp lines 118-138)
over the register file: read the general-configuration register, clear the
pwm-mode bit (offset 2) with the complement mask, or in the flag at that
offset, write the result back. -/
def enableStealthChop (en : Bool) (f : RegFile) : RegFile :=
  writeReg f MCL_GCONF
    ((f MCL_GCONF &&& not32 (1 <<< 2)) ||| ((if en then 1 else 0) <<< 2))

/-- Shallow embedding of reverseDirection (TMC5130_lib.cpp lines 140-160):
same read-modify-write with the shaft bit at offset 4. -/
def reverseDirection (en : Bool) (f : RegFile) : RegFile :=
  writeReg f MCL_GCONF
    ((f MCL_GCONF &&& not32 (1 <<< 4)) ||| ((if en then 1 else 0) <<< 4))

/-! Driver-object model for the frame-effect claim.  The seven shadow
motion-profile fields of the class (TMC5130_lib.h lines 130-136) form the
Shadow record; every public operation is a function from the driver state
(shadows plus register file) to the new driver state, with register effects
as in the source. -/

structure Shadow where
  a1 : Nat
  v1 : Nat
  amax : Nat
  vmax : Nat
  dmax : Nat
  d1 : Nat
  vstop : Nat

structure DriverState where
  sh : Shadow
  regs : RegFile

/-- moveTo (lines 91-94): write the target-position register. -/
def moveTo_op (pos : Nat) (s : DriverState) : DriverState :=
  ⟨s.sh, writeReg s.regs MCL_XTARGET pos⟩

/-- jog (lines 81-89): read actual position, add the signed offset, write
the sum to the target register (int32 addition wraps modulo 2^32). -/
def jog_op (uSteps : Int) (s : DriverState) : DriverState :=
  ⟨s.sh, writeReg s.regs MCL_XTARGET
    (toPattern32 (toSigned32 (s.regs MCL_XACTUAL) + uSteps))⟩

/-- isStopped (lines 96-106): read actual velocity, report whether the
signed value is exactly zero; the state is untouched. -/
def isStopped_op (s : DriverState) : Bool × DriverState :=
  (decide (toSigned32 (s.regs MCL_VACTUAL) = 0), s)

/-- setRampMode (lines 108-111): write the mode value to the ramp-mode
register. -/
def setRampMode_op (mode : Nat) (s : DriverState) : DriverState :=
  ⟨s.sh, writeReg s.regs MCL_RAMPMODE mode⟩

/-- setVelocity (lines 113-116): store the argument in the VMAX shadow
field, then write that shadow to the VMAX register. -/
def setVelocity_op (velocity : Nat) (s : DriverState) : DriverState :=
  ⟨⟨s.sh.a1, s.sh.v1, s.sh.amax, velocity, s.sh.dmax, s.sh.d1, s.sh.vstop⟩,
   writeReg s.regs MCL_VMAX velocity⟩

/-- enableStealthChop as a driver operation. -/
def enableStealthChop_op (en : Bool) (s : DriverState) : DriverState :=
  ⟨s.sh, enableStealthChop en s.regs⟩

/-- reverseDirection as a driver operation. -/
def reverseDirection_op (en : Bool) (s : DriverState) : DriverState :=
  ⟨s.sh, reverseDirection en s.regs⟩

/-- setPosition (lines 162-165): write the actual-position register. -/
def setPosition_op (pos : Nat) (s : DriverState) : DriverState :=
  ⟨s.sh, writeReg s.regs MCL_XACTUAL pos⟩

/-- getPosition (lines 167-172): read the actual-position register. -/
def getPosition_op (s : DriverState) : Int × DriverState :=
  (toSigned32 (s.regs MCL_XACTUAL), s)

/-- setCurrentLimits (lines 174-221) as a driver operation: write the
assembled current word, read the chopper configuration, write it back with
the sense-voltage bit applied. -/
def setCurrentLimits_op (ih ir : ℚ) (d junk : Nat) (s : DriverState) : DriverState :=
  let r1 := writeReg s.regs MCL_IHOLD_IRUN (iholdIrunWord junk ih ir d)
  let r2 := writeReg r1 MCL_CHOPCONF (chopconfWord (r1 MCL_CHOPCONF) ih ir)
  ⟨s.sh, r2⟩

/-- updateMotionProfile (lines 223-232): push the seven shadow fields to
their registers in source order. -/
def updateMotionProfile_op (s : DriverState) : DriverState :=
  ⟨s.sh,
   writeReg (writeReg (writeReg (writeReg (writeReg (writeReg (writeReg
     s.regs MCL_A1 s.sh.a1) MCL_V1 s.sh.v1) MCL_AMAX s.sh.amax)
     MCL_VMAX s.sh.vmax) MCL_DMAX s.sh.dmax) MCL_D1 s.sh.d1)
     MCL_VSTOP s.sh.vstop⟩

/-- getEncoderPosition (lines 234-239): read the encoder register. -/
def getEncoderPosition_op (s : DriverState) : Int × DriverState :=
  (toSigned32 (s.regs MCL_X_ENC), s)

/-- setEncoderPosition (lines 241-244): write the encoder register. -/
def setEncoderPosition_op (pos : Nat) (s : DriverState) : DriverState :=
  ⟨s.sh, writeReg s.regs MCL_X_ENC pos⟩

/-- write_register as a driver operation: one register write, no shadow
access. -/
def write_register_op (a v : Nat) (s : DriverState) : DriverState :=
  ⟨s.sh, writeReg s.regs a v⟩

/-- read_register as a driver operation over the register-file model:
returns status-free decoded data, touches nothing. -/
def read_register_op (a : Nat) (s : DriverState) : Int × DriverState :=
  (toSigned32 (s.regs a), s)

end TMC5130

namespace TMC5130

/-! Helper lemmas about bit patterns. -/

theorem shiftLeft_lor_eq_add (y x k : Nat) (hx : x < 2 ^ k) :
    (y <<< k) ||| x = y * 2 ^ k + x := by
  rw [Nat.shiftLeft_eq, Nat.mul_comm y (2 ^ k), ← Nat.mul_add_lt_is_or hx]

theorem word32_eq_add (b1 b2 b3 b4 : Nat) (h2 : b2 < 256) (h3 : b3 < 256)
    (h4 : b4 < 256) :
    word32 b1 b2 b3 b4 = b1 * 2 ^ 24 + b2 * 2 ^ 16 + b3 * 2 ^ 8 + b4 := by
  unfold word32
  rw [Nat.lor_assoc, Nat.lor_assoc]
  rw [shiftLeft_lor_eq_add b3 b4 8 (by omega)]
  rw [shiftLeft_lor_eq_add b2 (b3 * 2 ^ 8 + b4) 16 (by nlinarith)]
  rw [shiftLeft_lor_eq_add b1 (b2 * 2 ^ 16 + (b3 * 2 ^ 8 + b4)) 24 (by nlinarith)]
  ring

theorem xor_two_pow_of_lt {a k : Nat} (h : a < 2 ^ k) : a ^^^ 2 ^ k = a ||| 2 ^ k := by
  apply Nat.eq_of_testBit_eq
  intro i
  simp only [Nat.testBit_xor, Nat.testBit_lor, Nat.testBit_two_pow]
  by_cases hk : k = i
  · subst hk
    simp [Nat.testBit_lt_two_pow h]
  · simp [hk]

theorem and_255_eq_mod (x : Nat) : x &&& 0xFF = x % 256 := by
  simpa using Nat.and_pow_two_sub_one_eq_mod x 8

theorem and_31_eq_mod (x : Nat) : x &&& 0x1F = x % 32 := by
  simpa using Nat.and_pow_two_sub_one_eq_mod x 5

theorem and_15_eq_mod (x : Nat) : x &&& 0xF = x % 16 := by
  simpa using Nat.and_pow_two_sub_one_eq_mod x 4

/-! Evaluation lemmas for the current-limit converter at the concrete
inputs used by the claims. -/

theorem vfsVoltage_fifth : vfsVoltage (1 / 5) (1 / 5) = 18 / 100 := by
  unfold vfsVoltage
  norm_num

theorem vfsVoltage_sevenFifths : vfsVoltage (7 / 5) (7 / 5) = 32 / 100 := by
  unfold vfsVoltage
  norm_num

theorem rawScalar_fifth_nonneg : (0 : ℚ) ≤ rawScalar (1 / 5) (18 / 100) := by
  unfold rawScalar sqrt2Q RsenseQ
  norm_num

theorem rawScalar_sevenFifths_nonneg : (0 : ℚ) ≤ rawScalar (7 / 5) (32 / 100) := by
  unfold rawScalar sqrt2Q RsenseQ
  norm_num

theorem floor_rawScalar_fifth : ⌊|rawScalar (1 / 5) (18 / 100)|⌋ = 7 := by
  rw [abs_of_nonneg rawScalar_fifth_nonneg, Int.floor_eq_iff]
  constructor
  · unfold rawScalar sqrt2Q RsenseQ
    push_cast
    norm_num
  · unfold rawScalar sqrt2Q RsenseQ
    push_cast
    norm_num

theorem scalarCode_fifth : scalarCode (1 / 5) (18 / 100) = 7 := by
  unfold scalarCode
  rw [floor_rawScalar_fifth]
  rfl

theorem floor_rawScalar_sevenFifths : ⌊|rawScalar (7 / 5) (32 / 100)|⌋ = 32 := by
  rw [abs_of_nonneg rawScalar_sevenFifths_nonneg, Int.floor_eq_iff]
  constructor
  · unfold rawScalar sqrt2Q RsenseQ
    push_cast
    norm_num
  · unfold rawScalar sqrt2Q RsenseQ
    push_cast
    norm_num

theorem scalarCode_sevenFifths : scalarCode (7 / 5) (32 / 100) = 32 := by
  unfold scalarCode
  rw [floor_rawScalar_sevenFifths]
  rfl

theorem round_rawScalar_fifth : round |rawScalar (1 / 5) (18 / 100)| = 8 := by
  rw [abs_of_nonneg rawScalar_fifth_nonneg, round_eq, Int.floor_eq_iff]
  constructor
  · unfold rawScalar sqrt2Q RsenseQ
    push_cast
    norm_num
  · unfold rawScalar sqrt2Q RsenseQ
    push_cast
    norm_num

theorem spec_roundClampCode_fifth : spec_roundClampCode (1 / 5) (18 / 100) = 8 := by
  unfold spec_roundClampCode
  rw [round_rawScalar_fifth]
  decide

theorem scalarCode_zero : scalarCode 0 (vfsVoltage 0 0) = 1 := by
  have hv : vfsVoltage 0 0 = 18 / 100 := by
    unfold vfsVoltage
    norm_num
  rw [hv]
  unfold scalarCode
  have hr : rawScalar 0 (18 / 100) = -1 := by
    unfold rawScalar sqrt2Q RsenseQ
    norm_num
  rw [hr]
  norm_num

/-- Claim C1: for every address and every pair of 5-byte responses delivered
by the transport, read_register returns the status byte of the second
transfer and stores the signed big-endian reassembly of the data bytes of
the second transfer; the content of the first response (including its status
byte, quantified here and absent from the right-hand sides) influences
neither result, and a most significant byte with its top bit set yields a
negative stored value. -/
theorem read_register_pipelined (addr j1 j2 j3 j4 s0 x1 x2 x3 x4 s1 a b c d : Nat)
    (ha : a < 256) (hb : b < 256) (hc : c < 256) (hd : d < 256) :
    (read_register addr j1 j2 j3 j4 [s0, x1, x2, x3, x4] [s1, a, b, c, d]).status = s1 ∧
    (read_register addr j1 j2 j3 j4 [s0, x1, x2, x3, x4] [s1, a, b, c, d]).value =
      toSigned32 (a * 2 ^ 24 + b * 2 ^ 16 + c * 2 ^ 8 + d) ∧
    (128 ≤ a →
      (read_register addr j1 j2 j3 j4 [s0, x1, x2, x3, x4] [s1, a, b, c, d]).value < 0) := by
  refine ⟨rfl, ?_, ?_⟩
  · show toSigned32 (word32 a b c d) = _
    rw [word32_eq_add a b c d hb hc hd]
  · intro h128
    show toSigned32 (word32 a b c d) < 0
    rw [word32_eq_add a b c d hb hc hd]
    have hlo : 2 ^ 31 ≤ a * 2 ^ 24 + b * 2 ^ 16 + c * 2 ^ 8 + d := by omega
    have hhi : a * 2 ^ 24 + b * 2 ^ 16 + c * 2 ^ 8 + d < 2 ^ 32 := by omega
    unfold toSigned32
    rw [if_neg (by omega)]
    have : ((a * 2 ^ 24 + b * 2 ^ 16 + c * 2 ^ 8 + d : Nat) : Int) < 2 ^ 32 := by
      exact_mod_cast hhi
    omega

/-- Witness for claim C1 at a concrete input with a negative most
significant byte. -/
theorem read_register_pipelined_witness :
    (128 : Nat) < 256 ∧ (0 : Nat) < 256 ∧ (1 : Nat) < 256 ∧
    ((read_register 0x21 0 0 0 0 [7, 1, 2, 3, 4] [5, 128, 0, 0, 1]).status = 5 ∧
     (read_register 0x21 0 0 0 0 [7, 1, 2, 3, 4] [5, 128, 0, 0, 1]).value =
       toSigned32 (128 * 2 ^ 24 + 0 * 2 ^ 16 + 0 * 2 ^ 8 + 1) ∧
     (128 ≤ 128 →
       (read_register 0x21 0 0 0 0 [7, 1, 2, 3, 4] [5, 128, 0, 0, 1]).value < 0)) :=
  ⟨by decide, by decide, by decide,
   read_register_pipelined 0x21 0 0 0 0 7 1 2 3 4 5 128 0 0 1
     (by decide) (by decide) (by decide) (by decide)⟩

/-- Claim C2 (code bug evidence): read_register does send the same frame on
both transfers and its byte 0 is the address with the write bit clear, but
bytes 1-4 of the frame are the uninitialized bytes of the local cmd array,
not zero: with stack residue 0xDE 0xAD 0xBE 0xEF behind address 0x21 the
transmitted frame differs from the all-zero-payload frame the source
comment (line 54) and the specification describe. -/
theorem read_register_frame_uninitialized :
    (∀ addr j1 j2 j3 j4 rx1 rx2,
       (read_register addr j1 j2 j3 j4 rx1 rx2).sent1 =
         (read_register addr j1 j2 j3 j4 rx1 rx2).sent2 ∧
       (read_register addr j1 j2 j3 j4 rx1 rx2).sent1 = [addr, j1, j2, j3, j4]) ∧
    (read_register 0x21 0xDE 0xAD 0xBE 0xEF [0, 0, 0, 0, 0] [0, 0, 0, 0, 0]).sent1 ≠
      [0x21, 0, 0, 0, 0] := by
  refine ⟨fun addr j1 j2 j3 j4 rx1 rx2 => ⟨rfl, ?_⟩, by decide⟩
  simp [read_register]

/-- Claim C7: for every 7-bit address and 32-bit value, write_register
builds the 5-byte frame whose byte 0 is the address with the write bit
0x80 set and whose bytes 1-4 are the value in big-endian byte order; at
(0x24, 0x000088B8) the frame is exactly 0xA4 0x00 0x00 0x88 0xB8. -/
theorem write_register_frame (addr data : Nat) (ha : addr < 0x80) (hd : data < 2 ^ 32) :
    write_frame addr data =
      [addr ||| 0x80, data / 2 ^ 24 % 256, data / 2 ^ 16 % 256,
       data / 2 ^ 8 % 256, data % 256] ∧
    write_frame 0x24 0x000088B8 = [0xA4, 0x00, 0x00, 0x88, 0xB8] := by
  constructor
  · show [addr ^^^ 0x80, (data >>> 24) &&& 0xFF, (data >>> 16) &&& 0xFF,
      (data >>> 8) &&& 0xFF, data &&& 0xFF] = _
    have h80 : addr ^^^ 0x80 = addr ||| 0x80 := by
      have := xor_two_pow_of_lt (k := 7) (by omega : addr < 2 ^ 7)
      norm_num at this
      exact this
    rw [h80, Nat.shiftRight_eq_div_pow, Nat.shiftRight_eq_div_pow,
      Nat.shiftRight_eq_div_pow, and_255_eq_mod, and_255_eq_mod, and_255_eq_mod,
      and_255_eq_mod]
  · decide

/-- Witness for claim C7 at the concrete frame required by the
specification. -/
theorem write_register_frame_witness :
    (0x24 : Nat) < 0x80 ∧ (0x000088B8 : Nat) < 2 ^ 32 ∧
    (write_frame 0x24 0x000088B8 =
      [0x24 ||| 0x80, 0x000088B8 / 2 ^ 24 % 256, 0x000088B8 / 2 ^ 16 % 256,
       0x000088B8 / 2 ^ 8 % 256, 0x000088B8 % 256] ∧
     write_frame 0x24 0x000088B8 = [0xA4, 0x00, 0x00, 0x88, 0xB8]) :=
  ⟨by decide, by decide, write_register_frame 0x24 0x000088B8 (by decide) (by decide)⟩

/-- Claim C8: at exactly 0.75 A on both inputs the 0.18 V range is
selected, and the 0.32 V range is selected if and only if at least one of
the two currents strictly exceeds 0.75 A. -/
theorem vfsVoltage_boundary :
    vfsVoltage (3 / 4) (3 / 4) = 18 / 100 ∧
    ∀ ih ir : ℚ, vfsVoltage ih ir = 32 / 100 ↔ (3 / 4 < ih ∨ 3 / 4 < ir) := by
  constructor
  · unfold vfsVoltage
    norm_num
  · intro ih ir
    unfold vfsVoltage
    by_cases h : (3 / 4 : ℚ) < ih ∨ (3 / 4 : ℚ) < ir
    · rw [if_pos h]
      exact ⟨fun _ => h, fun _ => rfl⟩
    · rw [if_neg h]
      constructor
      · intro heq
        exfalso
        norm_num at heq
      · intro hcon
        exact absurd hcon h

/-- Claim C3 (code bug evidence): the word that setCurrentLimits writes to
the current-control register is not a deterministic function of the inputs
and its bits outside the three packed fields need not be zero, because the
local IHOLD_IRUN_CONFIG is read uninitialized: at zero currents and
iHoldDelay 7 a zero residue yields 0x00070101, while residue 0x100000 (a
single set bit outside every field) yields 0x00170101. -/
theorem ihold_irun_word_uninitialized :
    iholdIrunWord 0 0 0 7 = 0x00070101 ∧
    iholdIrunWord 0x100000 0 0 7 = 0x00170101 ∧
    iholdIrunWord 0x100000 0 0 7 ≠ iholdIrunWord 0 0 0 7 := by
  have h := scalarCode_zero
  have h1 : iholdIrunWord 0 0 0 7 = 0x00070101 := by
    unfold iholdIrunWord
    rw [h]
    decide
  have h2 : iholdIrunWord 0x100000 0 0 7 = 0x00170101 := by
    unfold iholdIrunWord
    rw [h]
    decide
  refine ⟨h1, h2, ?_⟩
  rw [h1, h2]
  decide

/-- Claim C4 (code bug evidence): the sense-voltage-range flag computed at
line 185 applies the bitwise NOT operator to a bool-valued int, producing
-1 or -2, both of which convert to the C truth value true; hence the bit
written at offset 17 of the chopper-configuration register is always set,
even when both currents exceed 0.75 A and the 0.32 V range was selected,
where the claim requires the bit to be cleared. -/
theorem vsense_bit_stuck :
    (∀ ih ir : ℚ, vfsBit ih ir = true) ∧
    vfsVoltage 1 1 = 32 / 100 ∧
    chopconfWord 0 1 1 = 0x20000 ∧
    Nat.testBit (chopconfWord 0 1 1) 17 = true := by
  have hb : ∀ ih ir : ℚ, vfsBit ih ir = true := by
    intro ih ir
    unfold vfsBit cNot
    by_cases h : (3 / 4 : ℚ) < ih ∨ (3 / 4 : ℚ) < ir
    · rw [if_pos h]
      decide
    · rw [if_neg h]
      decide
  have hw : chopconfWord 0 1 1 = 0x20000 := by
    unfold chopconfWord not32
    rw [hb 1 1]
    decide
  refine ⟨hb, ?_, hw, ?_⟩
  · unfold vfsVoltage
    norm_num
  · rw [hw]
    decide

/-- Claim C5 counterexample: at iHoldCurrent = iRunCurrent = 0.2 A the code
computed by the source (truncation of the absolute scaled value, masked to
5 bits) is 7, while the value the claim prescribes (rounding, clamped to
[0, 31]) is 8. -/
theorem scalarCode_not_round_clamp :
    scalarCode (1 / 5) (vfsVoltage (1 / 5) (1 / 5)) &&& 0x1F = 7 ∧
    spec_roundClampCode (1 / 5) (vfsVoltage (1 / 5) (1 / 5)) = 8 ∧
    ((scalarCode (1 / 5) (vfsVoltage (1 / 5) (1 / 5)) &&& 0x1F : Nat) : Int) ≠
      spec_roundClampCode (1 / 5) (vfsVoltage (1 / 5) (1 / 5)) := by
  have h1 : scalarCode (1 / 5) (vfsVoltage (1 / 5) (1 / 5)) &&& 0x1F = 7 := by
    rw [vfsVoltage_fifth, scalarCode_fifth]
    decide
  have h2 : spec_roundClampCode (1 / 5) (vfsVoltage (1 / 5) (1 / 5)) = 8 := by
    rw [vfsVoltage_fifth, spec_roundClampCode_fifth]
  refine ⟨h1, h2, ?_⟩
  rw [h1, h2]
  decide

/-- Claim C5 amended: the 5-bit code computed by setCurrentLimits equals
the truncation (floor) of the absolute scaled value reduced modulo 32 —
truncation instead of rounding and masking instead of clamping — read here
out of the assembled register word at residue 0: bits 0-4 carry the iHold
code and bits 8-12 the iRun code; consequently a current whose unclamped
code exceeds 31 wraps instead of clamping: at 1.4 A on both inputs the
scaled value truncates to 32 and the stored field is 0, not 31. -/
theorem scalarCode_trunc_mask (ih ir : ℚ) (d : Nat)
    (h0h : 0 ≤ ih) (h0r : 0 ≤ ir)
    (hmh : scalarCode ih (vfsVoltage ih ir) ≤ 127)
    (hmr : scalarCode ir (vfsVoltage ih ir) ≤ 127) :
    iholdIrunWord 0 ih ir d % 32 =
      (⌊|rawScalar ih (vfsVoltage ih ir)|⌋).toNat % 32 ∧
    iholdIrunWord 0 ih ir d / 2 ^ 8 % 32 =
      (⌊|rawScalar ir (vfsVoltage ih ir)|⌋).toNat % 32 ∧
    scalarCode (7 / 5) (vfsVoltage (7 / 5) (7 / 5)) &&& 0x1F = 0 := by
  have hcLt : scalarCode ih (vfsVoltage ih ir) &&& 0x1F < 32 := by
    rw [and_31_eq_mod]
    exact Nat.mod_lt _ (by omega)
  have hrLt : scalarCode ir (vfsVoltage ih ir) &&& 0x1F < 32 := by
    rw [and_31_eq_mod]
    exact Nat.mod_lt _ (by omega)
  have hdLt : d &&& 0xF < 16 := by
    rw [and_15_eq_mod]
    exact Nat.mod_lt _ (by omega)
  have hword : iholdIrunWord 0 ih ir d =
      (d &&& 0xF) * 2 ^ 16 + (scalarCode ir (vfsVoltage ih ir) &&& 0x1F) * 2 ^ 8 +
        (scalarCode ih (vfsVoltage ih ir) &&& 0x1F) := by
    unfold iholdIrunWord
    rw [Nat.zero_or]
    rw [Nat.shiftLeft_eq (scalarCode ir (vfsVoltage ih ir) &&& 0x1F) 8]
    rw [shiftLeft_lor_eq_add (d &&& 0xF)
      ((scalarCode ir (vfsVoltage ih ir) &&& 0x1F) * 2 ^ 8) 16 (by nlinarith)]
    have hsplit : (d &&& 0xF) * 2 ^ 16 +
        (scalarCode ir (vfsVoltage ih ir) &&& 0x1F) * 2 ^ 8 =
        2 ^ 5 * ((d &&& 0xF) * 2 ^ 11 +
          (scalarCode ir (vfsVoltage ih ir) &&& 0x1F) * 2 ^ 3) := by
      ring
    rw [hsplit, ← Nat.mul_add_lt_is_or hcLt, ← hsplit]
  constructor
  · rw [hword, and_15_eq_mod, and_31_eq_mod, and_31_eq_mod]
    unfold scalarCode
    omega
  constructor
  · rw [hword, and_15_eq_mod, and_31_eq_mod, and_31_eq_mod]
    unfold scalarCode
    omega
  · rw [vfsVoltage_sevenFifths, scalarCode_sevenFifths]
    decide

theorem writeReg_self (f : RegFile) (a : Nat) : writeReg f a (f a) = f := by
  funext x
  unfold writeReg
  by_cases hx : x = a
  · subst hx
    rw [if_pos rfl]
  · rw [if_neg hx]

theorem testBit_one_shl_two (i : Nat) : Nat.testBit (1 <<< 2) i = decide (i = 2) := by
  have h4 : (1 <<< 2 : Nat) = 2 ^ 2 := by decide
  rw [h4, Nat.testBit_two_pow]
  simp [eq_comm]

theorem testBit_mask_two (i : Nat) :
    Nat.testBit (not32 (1 <<< 2)) i = (decide (i < 32) && !decide (i = 2)) := by
  unfold not32
  rw [Nat.testBit_xor, Nat.testBit_two_pow_sub_one, testBit_one_shl_two]
  by_cases h2 : i = 2
  · subst h2
    simp
  · simp [h2]

/-- Claim C6: against the fallible transport, a failure in either of the
two transfers of a read makes the whole operation return that error — no
value is produced, so nothing partially assembled reaches the out pointer,
and the error is surfaced unchanged with no retry — while a pair of
successful transfers yields the status and decoded value of the second
transfer. -/
theorem read_register_exc_atomic (addr j1 j2 j3 j4 : Nat) :
    (∀ e t2, read_register_exc addr j1 j2 j3 j4 (.error e) t2 = .error e) ∧
    (∀ rx e, read_register_exc addr j1 j2 j3 j4 (.ok rx) (.error e) = .error e) ∧
    (∀ rx1 s1 a b c d,
      read_register_exc addr j1 j2 j3 j4 (.ok rx1) (.ok (s1, a, b, c, d)) =
        .ok (s1, toSigned32 (word32 a b c d))) :=
  ⟨fun _ _ => rfl, fun _ _ => rfl, fun _ _ _ _ _ _ => rfl⟩

/-- Claim C9: over the register model in which a read returns the last
value written, a second enableStealthChop true is the identity on the whole
register file, and a subsequent enableStealthChop false clears exactly bit
2 of the general-configuration register — the bit was set before, is clear
after, every other bit position keeps its value, and every other register
is untouched. -/
theorem enableStealthChop_idempotent_toggle (f : RegFile) (h : f MCL_GCONF < 2 ^ 32) :
    enableStealthChop true (enableStealthChop true f) = enableStealthChop true f ∧
    Nat.testBit (enableStealthChop true f MCL_GCONF) 2 = true ∧
    Nat.testBit (enableStealthChop false (enableStealthChop true f) MCL_GCONF) 2 = false ∧
    (∀ i, i ≠ 2 →
      Nat.testBit (enableStealthChop false (enableStealthChop true f) MCL_GCONF) i =
        Nat.testBit (enableStealthChop true f MCL_GCONF) i) ∧
    (∀ a, a ≠ MCL_GCONF →
      enableStealthChop false (enableStealthChop true f) a =
        enableStealthChop true f a) := by
  set g := f MCL_GCONF with hg
  have hv1 : enableStealthChop true f MCL_GCONF = (g &&& not32 (1 <<< 2)) ||| (1 <<< 2) := by
    unfold enableStealthChop writeReg
    simp
  have hgBit : ∀ i, 32 ≤ i → Nat.testBit g i = false := fun i hi =>
    Nat.testBit_lt_two_pow (lt_of_lt_of_le h (Nat.pow_le_pow_right (by omega) hi))
  have hv1Bit2 : Nat.testBit (enableStealthChop true f MCL_GCONF) 2 = true := by
    rw [hv1, Nat.testBit_lor, testBit_one_shl_two]
    simp
  have hv1High : ∀ i, 32 ≤ i →
      Nat.testBit (enableStealthChop true f MCL_GCONF) i = false := by
    intro i hi
    rw [hv1, Nat.testBit_lor, Nat.testBit_land, testBit_mask_two, testBit_one_shl_two]
    have h1 : decide (i < 32) = false := by simp; omega
    have h2 : decide (i = 2) = false := by simp; omega
    rw [h1, h2]
    simp
  have hfix : ((enableStealthChop true f MCL_GCONF) &&& not32 (1 <<< 2)) ||| (1 <<< 2) =
      enableStealthChop true f MCL_GCONF := by
    apply Nat.eq_of_testBit_eq
    intro i
    rw [Nat.testBit_lor, Nat.testBit_land, testBit_mask_two, testBit_one_shl_two]
    by_cases h2 : i = 2
    · subst h2
      simp [hv1Bit2]
    · by_cases h32 : i < 32
      · simp [h2, h32]
      · have := hv1High i (by omega)
        simp [h2, h32, this]
  have hidem : enableStealthChop true (enableStealthChop true f) =
      enableStealthChop true f := by
    show writeReg (enableStealthChop true f) MCL_GCONF
      (((enableStealthChop true f) MCL_GCONF &&& not32 (1 <<< 2)) |||
        ((if true then 1 else 0) <<< 2)) = enableStealthChop true f
    simp only [if_pos trivial]
    rw [hfix]
    exact writeReg_self _ _
  have hv2 : enableStealthChop false (enableStealthChop true f) MCL_GCONF =
      (enableStealthChop true f MCL_GCONF) &&& not32 (1 <<< 2) := by
    show writeReg (enableStealthChop true f) MCL_GCONF
      (((enableStealthChop true f) MCL_GCONF &&& not32 (1 <<< 2)) |||
        ((if false then 1 else 0) <<< 2)) MCL_GCONF = _
    unfold writeReg
    simp
  refine ⟨hidem, hv1Bit2, ?_, ?_, ?_⟩
  · rw [hv2, Nat.testBit_land, testBit_mask_two]
    simp
  · intro i hi
    rw [hv2, Nat.testBit_land, testBit_mask_two]
    by_cases h32 : i < 32
    · simp [hi, h32]
    · have := hv1High i (by omega)
      simp [hi, h32, this]
  · intro a ha
    show writeReg (enableStealthChop true f) MCL_GCONF _ a = _
    unfold writeReg
    rw [if_neg ha]

/-- Witness for claim C9 over the all-zero register file. -/
theorem enableStealthChop_idempotent_toggle_witness :
    ((fun _ => 0 : RegFile) MCL_GCONF < 2 ^ 32) ∧
    (enableStealthChop true (enableStealthChop true (fun _ => 0)) =
       enableStealthChop true (fun _ => 0) ∧
     Nat.testBit (enableStealthChop true (fun _ => 0) MCL_GCONF) 2 = true ∧
     Nat.testBit
       (enableStealthChop false (enableStealthChop true (fun _ => 0)) MCL_GCONF) 2 =
         false ∧
     (∀ i, i ≠ 2 →
       Nat.testBit
         (enableStealthChop false (enableStealthChop true (fun _ => 0)) MCL_GCONF) i =
           Nat.testBit (enableStealthChop true (fun _ => 0) MCL_GCONF) i) ∧
     (∀ a, a ≠ MCL_GCONF →
       enableStealthChop false (enableStealthChop true (fun _ => 0)) a =
         enableStealthChop true (fun _ => 0) a)) :=
  ⟨by norm_num, enableStealthChop_idempotent_toggle (fun _ => 0) (by norm_num)⟩

/-- Claim C10: every public operation other than begin and setVelocity
leaves the seven shadow motion-profile fields unchanged, and setVelocity
changes only the VMAX shadow among them, setting it to its argument. -/
theorem ops_preserve_shadow (s : DriverState) (pos pos2 pos3 v m a w d junk rd : Nat)
    (uSteps : Int) (en en2 : Bool) (ih ir : ℚ) :
    (moveTo_op pos s).sh = s.sh ∧
    (jog_op uSteps s).sh = s.sh ∧
    (setRampMode_op m s).sh = s.sh ∧
    (enableStealthChop_op en s).sh = s.sh ∧
    (reverseDirection_op en2 s).sh = s.sh ∧
    (setPosition_op pos2 s).sh = s.sh ∧
    (getPosition_op s).2.sh = s.sh ∧
    (setCurrentLimits_op ih ir d junk s).sh = s.sh ∧
    (updateMotionProfile_op s).sh = s.sh ∧
    (getEncoderPosition_op s).2.sh = s.sh ∧
    (setEncoderPosition_op pos3 s).sh = s.sh ∧
    (isStopped_op s).2.sh = s.sh ∧
    (write_register_op a w s).sh = s.sh ∧
    (read_register_op rd s).2.sh = s.sh ∧
    (setVelocity_op v s).sh.vmax = v ∧
    (setVelocity_op v s).sh.a1 = s.sh.a1 ∧
    (setVelocity_op v s).sh.v1 = s.sh.v1 ∧
    (setVelocity_op v s).sh.amax = s.sh.amax ∧
    (setVelocity_op v s).sh.dmax = s.sh.dmax ∧
    (setVelocity_op v s).sh.d1 = s.sh.d1 ∧
    (setVelocity_op v s).sh.vstop = s.sh.vstop :=
  ⟨rfl, rfl, rfl, rfl, rfl, rfl, rfl, rfl, rfl, rfl,
   rfl, rfl, rfl, rfl, rfl, rfl, rfl, rfl, rfl, rfl, rfl⟩

/-- Witness for the amended claim C5 at 0.2 A currents and hold delay 7. -/
theorem scalarCode_trunc_mask_witness :
    (0 : ℚ) ≤ 1 / 5 ∧
    scalarCode (1 / 5) (vfsVoltage (1 / 5) (1 / 5)) ≤ 127 ∧
    (iholdIrunWord 0 (1 / 5) (1 / 5) 7 % 32 =
      (⌊|rawScalar (1 / 5) (vfsVoltage (1 / 5) (1 / 5))|⌋).toNat % 32 ∧
     iholdIrunWord 0 (1 / 5) (1 / 5) 7 / 2 ^ 8 % 32 =
      (⌊|rawScalar (1 / 5) (vfsVoltage (1 / 5) (1 / 5))|⌋).toNat % 32 ∧
     scalarCode (7 / 5) (vfsVoltage (7 / 5) (7 / 5)) &&& 0x1F = 0) := by
  have hb : scalarCode (1 / 5) (vfsVoltage (1 / 5) (1 / 5)) ≤ 127 := by
    rw [vfsVoltage_fifth, scalarCode_fifth]
    omega
  exact ⟨by norm_num, hb,
    scalarCode_trunc_mask (1 / 5) (1 / 5) 7 (by norm_num) (by norm_num) hb hb⟩

end TMC5130
